import Mathlib

/-!
Verification of the BetSA display-server capture pipeline.

Shallow embedding of the logic in src/screenshot.js (truth-verified
screenshot engine, topology parsing, quality clamping, post-processing
width arithmetic), src/server.js (the resilient DevTools controller:
navigation idempotence and reconnect backoff), and src/screen-map.js
(runtime left/right screen-to-port detection and controller building).

External collaborators (the WHATWG URL parser, the DevTools wire
protocol, the xrandr regex scanner, the sharp and ffmpeg binaries) are
modelled at their interface boundary: a URL parse is a function
returning Option String, the xrandr scan is the list of matched
geometry records plus the optional current-WxH match, probe results
are Option values. Every decision made by repository code is
translated literally from the source.
-/

namespace BetsaDisplay

/-! ### Persistent expected-URL state (src/screenshot.js lines 68-79) -/

/-- The JSON state file shape: expected URL per HDMI output
(null or a string in the source). -/
structure KioskState where
  hdmi1 : Option String
  hdmi2 : Option String
deriving DecidableEq, Repr

/-- Result of reading STATE_FILE: the file may be missing, hold
unparsable JSON, or parse to a state record. Both failure shapes take
the catch branch of loadState in the source. -/
inductive StateFileRead where
  | missing
  | malformed (raw : String)
  | parsed (s : KioskState)
deriving DecidableEq, Repr

/-- loadState (screenshot.js line 68): parse the state file, and on any
read or parse failure return the null record instead of throwing. -/
def loadState : StateFileRead → KioskState
  | StateFileRead.parsed s => s
  | _ => { hdmi1 := none, hdmi2 := none }

/-- expectedFor (screenshot.js line 72): pick the expected URL for a
logical screen id; ids other than "1" and "2" give null. -/
def expectedFor (r : StateFileRead) (id : String) : Option String :=
  if id = "1" then (loadState r).hdmi1
  else if id = "2" then (loadState r).hdmi2
  else none

/-- normalizeUrl (screenshot.js line 76). The WHATWG URL constructor is
an external platform API, passed in as href : String → Option String
(some h on successful parse with canonical href h, none when the
constructor throws); falsy input (the empty string) maps to "". -/
def normalizeUrl (href : String → Option String) (u : String) : String :=
  if u = "" then "" else (href u).getD u

/-! ### DevTools truth check (src/screenshot.js lines 150-176) -/

/-- The blank-or-error-page test of screenshot.js line 164: current URL
empty, "about:blank", or a chrome-error:// URL. The startsWith test is
taken on the character list so that it evaluates by structural
recursion. -/
def isBlankOrError (current : String) : Bool :=
  decide (current = "") || decide (current = "about:blank")
    || List.isPrefixOf "chrome-error://".data current.data

/-- Outcome of the truth-check section of captureViaDevtoolsTruth:
either of the two throw sites, or fall through to
Page.captureScreenshot. -/
inductive TruthOutcome where
  | urlMismatch
  | blankOrError
  | captured
deriving DecidableEq, Repr

/-- Lines 157-176 of screenshot.js, on the already-normalized expected
and current URLs: first, if an expected URL is configured (non-empty)
and differs from the current URL, throw the url-mismatch error; next,
if the current URL is blank or an error page, throw the bad-url error;
otherwise proceed to the screenshot. -/
def devtoolsTruthOutcome (expected current : String) : TruthOutcome :=
  if expected ≠ "" ∧ current ≠ expected then TruthOutcome.urlMismatch
  else if isBlankOrError current then TruthOutcome.blankOrError
  else TruthOutcome.captured

/-! ### Capture orchestration (src/screenshot.js lines 210-226) -/

/-- The two capture strategies of captureScreenshot, in source order. -/
inductive CaptureMethod where
  | devtoolsTruth
  | x11FullCrop
deriving DecidableEq, Repr

/-- The terminal error message of captureScreenshot (line 225). -/
def allMethodsExhaustedMsg : String := "screenshot failed: all methods exhausted"

/-- captureScreenshot (screenshot.js lines 210-226): try the DevTools
truth path; on its failure try the X11 full-desktop crop; when both
fail, fail with the all-methods-exhausted error. The outcome of each
path is an input (Except value); the second component records the
methods attempted in order. -/
def captureScreenshotRun {α : Type} (devtools x11 : Except String α) :
    Except String α × List CaptureMethod :=
  match devtools with
  | Except.ok r => (Except.ok r, [CaptureMethod.devtoolsTruth])
  | Except.error _ =>
    match x11 with
    | Except.ok r => (Except.ok r, [CaptureMethod.devtoolsTruth, CaptureMethod.x11FullCrop])
    | Except.error _ =>
        (Except.error allMethodsExhaustedMsg,
         [CaptureMethod.devtoolsTruth, CaptureMethod.x11FullCrop])

/-! ### Quality clamping and the ffmpeg quality map
(src/screenshot.js lines 171-176, 232, 241-251) -/

/-- The clamp idiom of the source: Math.max(1, Math.min(100, q)). -/
def clampQuality (q : ℤ) : ℤ := max 1 (min 100 q)

/-- Quality actually placed in the Page.captureScreenshot request
(screenshot.js line 173): the clamped value. -/
def captureRequestQuality (q : ℤ) : ℤ := clampQuality q

/-- Quality passed to the sharp jpeg encoder (screenshot.js line 248):
the raw value, with no clamp at this call site. -/
def sharpEncodeQuality (q : ℤ) : ℤ := q

/-- mapJpegQualityToFfmpegQ (screenshot.js line 232):
Math.round(31 - clamp(q) * (29/100)) then clamped to [2, 31].
The source computes in IEEE doubles; for every integer q the double
result of 31 - clamp(q)*(29/100) lies within 1e-13 of the exact
rational, whose distance from the nearest .5 rounding boundary is at
least 0.01 except at clamp(q) = 50, where the double product
50 * 0.29000000000000000444... rounds to exactly 14.5 and both the
double and the exact computation give round(16.5) = 17 — so exact
rational arithmetic reproduces the double computation on all inputs.
Lean's round is ⌊x + 1/2⌋, the same half-up convention as
Math.round. -/
def mapJpegQualityToFfmpegQ (q : ℤ) : ℤ :=
  max 2 (min 31 (round ((31 : ℚ) - (clampQuality q : ℚ) * (29 / 100))))

/-! ### Post-processing width arithmetic (src/screenshot.js lines 241-265) -/

/-- SCALE_DIVISOR (screenshot.js line 12). -/
def SCALE_DIVISOR : Nat := 2

/-- The three tiers of compressFile, in fallback order: sharp
resize+encode, ffmpeg scale, raw passthrough. -/
inductive CompressTier where
  | sharpResize
  | ffmpegScale
  | rawPassthrough
deriving DecidableEq, Repr

/-- Target width of the sharp tier (screenshot.js line 247):
Math.max(1, Math.round((meta.width || 1) / SCALE_DIVISOR)). For a
natural w0 and divisor 2, Math.round(w0 / 2) = (w0 + 1) / 2 in floor
division (round half up). -/
def sharpTargetWidth (w : Nat) : Nat :=
  let w0 := if w = 0 then 1 else w
  max 1 ((w0 + 1) / SCALE_DIVISOR)

/-- Output width of each tier of compressFile as a function of the
input width: the sharp tier resizes to sharpTargetWidth (line 248), the
ffmpeg tier applies the scale=iw/SCALE_DIVISOR:-1 filter whose width
expression truncates to floor (line 256), and the raw passthrough
returns the file bytes unchanged (lines 262-264). -/
def compressWidth : CompressTier → Nat → Nat
  | CompressTier.sharpResize, w => sharpTargetWidth w
  | CompressTier.ffmpegScale, w => w / SCALE_DIVISOR
  | CompressTier.rawPassthrough, w => w

/-- Tier selection of compressFile (lines 242-262): sharp when loaded
and its resize succeeds, else ffmpeg when installed, else raw
passthrough. -/
def compressFileTier (sharpOk ffmpegOk : Bool) : CompressTier :=
  if sharpOk then CompressTier.sharpResize
  else if ffmpegOk then CompressTier.ffmpegScale
  else CompressTier.rawPassthrough

/-- Output width of compressFile given which tiers are available. -/
def compressFileWidth (sharpOk ffmpegOk : Bool) (w : Nat) : Nat :=
  compressWidth (compressFileTier sharpOk ffmpegOk) w

/-! ### Persistent navigation controller (src/server.js lines 36-127) -/

/-- Initial reconnect backoff of DevToolsController (server.js line 46). -/
def BACKOFF_INITIAL : Nat := 2000

/-- Reconnect backoff cap (server.js line 125). -/
def BACKOFF_CAP : Nat := 60000

/-- scheduleReconnect (server.js lines 117-126): the timer is armed
with the current backoff as its delay, and the backoff field is then
doubled and capped: Math.min(backoff * 2, 60000). -/
def scheduleReconnect (backoff : Nat) : Nat × Nat :=
  (backoff, min (backoff * 2) BACKOFF_CAP)

/-- The two events that touch the backoff field: a reconnect actually
being scheduled (the timer guard at line 118 passed), and a successful
channel open (line 73 resets the backoff). -/
inductive ChanEvent where
  | scheduled
  | openedOk
deriving DecidableEq, Repr

/-- Effect of one event on the backoff field. -/
def backoffStep (b : Nat) : ChanEvent → Nat
  | ChanEvent.scheduled => (scheduleReconnect b).2
  | ChanEvent.openedOk => BACKOFF_INITIAL

/-- Backoff field after a sequence of events, starting from the
constructor's initial 2000 (server.js line 46). -/
def backoffAfter (es : List ChanEvent) : Nat :=
  es.foldl backoffStep BACKOFF_INITIAL

/-- The navigation-relevant state of a DevToolsController: whether the
WebSocket is open (ws && ws.readyState === OPEN), the last desired URL,
and the log of Page.navigate commands actually written to the wire. -/
structure DevToolsCtrl where
  wsOpen : Bool
  desiredUrl : Option String
  sentLog : List String
deriving DecidableEq, Repr

/-- sendNavigate (server.js lines 101-109): writes the Page.navigate
command only when the socket is open, otherwise returns silently. -/
def sendNavigate (c : DevToolsCtrl) (url : String) : DevToolsCtrl :=
  if c.wsOpen then { c with sentLog := c.sentLog ++ [url] } else c

/-- navigate (server.js lines 52-59): record the desired URL; if the
channel is open send immediately, otherwise ensure a reconnection is
pending (which does not write to the wire). -/
def navigate (c : DevToolsCtrl) (url : String) : DevToolsCtrl :=
  let c1 := { c with desiredUrl := some url }
  if c1.wsOpen then sendNavigate c1 url else c1

/-- The open handler (server.js lines 70-75): mark the channel open and
send the pending desired URL, if any. (The same handler also resets
the backoff field, modelled by ChanEvent.openedOk above.) -/
def onOpen (c : DevToolsCtrl) : DevToolsCtrl :=
  let c1 := { c with wsOpen := true }
  match c1.desiredUrl with
  | some u => sendNavigate c1 u
  | none => c1

/-! ### Runtime screen-to-port detection (src/screen-map.js) -/

/-- The candidate remote-debugging ports (screen-map.js line 76). -/
def candidatePorts : List Nat := [9222, 9223]

/-- A detected left/right port map (screen-map.js line 92): right is
null when only a single debugged window was found. -/
structure DetectedMap where
  left : Nat
  right : Option Nat
deriving DecidableEq, Repr

/-- detectLeftRightPortsCDP (screen-map.js lines 75-93): probe each
candidate port for its window x-position (probe p = none when the CDP
round-trip failed and the port is skipped), sort the successes by
ascending x, bind left to the leftmost port and right to the second
port — null when only one window was found. Returns none when no
window answered (detected: false). -/
def detectLeftRightPortsCDP (probe : Nat → Option Int) : Option DetectedMap :=
  let out := candidatePorts.filterMap fun p => (probe p).map fun xv => (p, xv)
  match List.insertionSort (fun a b : Nat × Int => a.2 ≤ b.2) out with
  | [] => none
  | [a] => some { left := a.1, right := none }
  | a :: b :: _ => some { left := a.1, right := some b.1 }

/-- The controller slots for the two logical screens, holding the bound
port when a controller exists. -/
structure Controllers where
  c1 : Option Nat
  c2 : Option Nat
deriving DecidableEq, Repr

/-- buildControllers (screen-map.js lines 151-171): always create the
left controller on map.left; create the right controller only if
map.right is a distinct, non-null port, otherwise leave screen "2"
with no controller. -/
def buildControllers (m : DetectedMap) : Controllers :=
  { c1 := some m.left
  , c2 := match m.right with
          | some r => if r ≠ m.left then some r else none
          | none => none }

/-- Outcome of applyIfReady for one navigation request. -/
inductive ApplyOutcome where
  | ignored
  | applied
  | queuedUnavailable
  | queuedNotReady
deriving DecidableEq, Repr

/-- Controller lookup controllers[id]. -/
def ctrlFor (cs : Controllers) (id : String) : Option Nat :=
  if id = "1" then cs.c1 else if id = "2" then cs.c2 else none

/-- applyIfReady (screen-map.js lines 173-183): empty URL is ignored;
when the mapping is ready and a controller exists the URL is applied;
when screen "2" has no controller the request is queued with the
screen-unavailable log; otherwise it is queued as mapping-not-ready. -/
def applyIfReady (ready : Bool) (cs : Controllers) (id url : String) : ApplyOutcome :=
  if url = "" then ApplyOutcome.ignored
  else if ready && (ctrlFor cs id).isSome then ApplyOutcome.applied
  else if id = "2" ∧ cs.c2 = none then ApplyOutcome.queuedUnavailable
  else ApplyOutcome.queuedNotReady

/-! ### Output topology resolution (src/screenshot.js lines 36-62) -/

/-- One connected HDMI head matched by the geometry regex:
name, WxH+X+Y. -/
structure Head where
  name : String
  w : Nat
  h : Nat
  x : Nat
  y : Nat
deriving DecidableEq, Repr

/-- The left/right ordering on heads used by the sort at line 53:
compare x-offsets. -/
def headLe (a b : Head) : Prop := a.x ≤ b.x

instance : DecidableRel headLe :=
  fun a b => inferInstanceAs (Decidable (a.x ≤ b.x))

instance : IsTotal Head headLe := ⟨fun a b => Nat.le_total a.x b.x⟩

instance : IsTrans Head headLe := ⟨fun _ _ _ hab hbc => Nat.le_trans hab hbc⟩

/-- The conservative fallback heads of screenshot.js lines 48-51. -/
def defaultHeads : List Head :=
  [ { name := "HDMI-1", w := 1920, h := 1080, x := 0, y := 0 }
  , { name := "HDMI-2", w := 1920, h := 1080, x := 1920, y := 0 } ]

/-- Result of parseHeads: total canvas size and head list. -/
structure Topology where
  totalW : Nat
  totalH : Nat
  heads : List Head
deriving DecidableEq, Repr

/-- The bounding-box union of lines 55-59: total W is max(x+w) - min(x)
over the heads, total H is max(y+h) - min(y). Defined on a nonempty
head list (the source only reaches it with heads.length > 0); the
empty case mirrors an empty Math.min spread never taken. -/
def bboxTotalList : List Head → Nat × Nat
  | [] => (0, 0)
  | h0 :: rest =>
    let hs := h0 :: rest
    let minX := (hs.map fun hd => hd.x).foldl min h0.x
    let maxX := (hs.map fun hd => hd.x + hd.w).foldl max (h0.x + h0.w)
    let minY := (hs.map fun hd => hd.y).foldl min h0.y
    let maxY := (hs.map fun hd => hd.y + hd.h).foldl max (h0.y + h0.h)
    (maxX - minX, maxY - minY)

/-- parseHeads (screenshot.js lines 36-62). The regex scan over the
xrandr output is abstracted as its results: totalOpt is the
"current W x H" match (none when the match failed or yielded
non-finite numbers) and the argument list holds the matched connected
HDMI geometry records in match order. When no geometry line matched,
return the conservative two-head default with total 3840x1080
(discarding totalOpt, as the source does); otherwise sort the heads by
ascending x and take the total from totalOpt, deriving it from the
bounding-box union when absent. Total as a Lean function, it can never
raise. -/
def parseHeads (totalOpt : Option (Nat × Nat)) : List Head → Topology
  | [] => { totalW := 3840, totalH := 1080, heads := defaultHeads }
  | h0 :: rest =>
    let sorted := List.insertionSort headLe (h0 :: rest)
    let t :=
      match totalOpt with
      | some t => t
      | none => bboxTotalList sorted
    { totalW := t.1, totalH := t.2, heads := sorted }

/-- A concrete out-of-order dual-head layout used to exercise
parseHeads. -/
def demoHeads : List Head :=
  [ { name := "HDMI-2", w := 1920, h := 1080, x := 1920, y := 0 }
  , { name := "HDMI-1", w := 1920, h := 1080, x := 0, y := 0 } ]

/-! ## Theorems -/

/-- C1: In the DevTools truth path, for a configured (non-empty)
normalized expected URL, a differing normalized current URL makes the
capture fail with the url-mismatch error before any screenshot;
independently, a blank or error-page current URL never reaches the
screenshot; and with no expected URL configured the mismatch check is
skipped and any non-blank, non-error page is captured. -/
theorem devtools_truth_check_c1 (expected current : String) :
    (expected ≠ "" → current ≠ expected →
      devtoolsTruthOutcome expected current = TruthOutcome.urlMismatch) ∧
    (isBlankOrError current = true →
      devtoolsTruthOutcome expected current ≠ TruthOutcome.captured) ∧
    (isBlankOrError current = false →
      devtoolsTruthOutcome "" current = TruthOutcome.captured) := by
  refine ⟨fun h1 h2 => ?_, fun hb => ?_, fun hb => ?_⟩
  · simp [devtoolsTruthOutcome, h1, h2]
  · simp only [devtoolsTruthOutcome, hb]
    split_ifs <;> simp
  · simp [devtoolsTruthOutcome, hb]

/-- Witness for C1 at concrete URLs: a mismatching pair fails with
url-mismatch, a blank page is never captured, and with no expected URL
an ordinary page is captured. -/
theorem devtools_truth_check_c1_witness :
    devtoolsTruthOutcome "https://a/" "https://b/" = TruthOutcome.urlMismatch ∧
    devtoolsTruthOutcome "https://a/" "about:blank" ≠ TruthOutcome.captured ∧
    devtoolsTruthOutcome "" "https://b/" = TruthOutcome.captured :=
  ⟨(devtools_truth_check_c1 "https://a/" "https://b/").1 (by decide) (by decide),
   (devtools_truth_check_c1 "https://a/" "about:blank").2.1 (by decide),
   (devtools_truth_check_c1 "" "https://b/").2.2 (by decide)⟩

/-- C2: captureScreenshot always attempts the DevTools truth path
first and the X11 crop fallback only after the truth path failed,
never in the other order; when both paths fail the request fails with
the all-methods-exhausted error. -/
theorem capture_order_c2 {α : Type} (devtools x11 : Except String α)
    (a : α) (e1 e2 : String) :
    captureScreenshotRun (Except.ok a) x11 =
      (Except.ok a, [CaptureMethod.devtoolsTruth]) ∧
    captureScreenshotRun (Except.error e1) (Except.ok a) =
      (Except.ok a, [CaptureMethod.devtoolsTruth, CaptureMethod.x11FullCrop]) ∧
    @captureScreenshotRun α (Except.error e1) (Except.error e2) =
      (Except.error allMethodsExhaustedMsg,
        [CaptureMethod.devtoolsTruth, CaptureMethod.x11FullCrop]) ∧
    (captureScreenshotRun devtools x11).2.head? = some CaptureMethod.devtoolsTruth ∧
    ((captureScreenshotRun devtools x11).2 = [CaptureMethod.devtoolsTruth] ∨
      (captureScreenshotRun devtools x11).2 =
        [CaptureMethod.devtoolsTruth, CaptureMethod.x11FullCrop]) := by
  refine ⟨rfl, rfl, rfl, ?_, ?_⟩ <;>
    rcases devtools with e | r <;> rcases x11 with e' | r' <;>
      simp [captureScreenshotRun]

/-- C7: for quality in [1,100] the ffmpeg quality map equals
round(31 - q * 29 / 100) clamped to [2,31], and the result always lies
in [2,31]. -/
theorem ffmpeg_quality_map_c7 (q : ℤ) (h1 : 1 ≤ q) (h2 : q ≤ 100) :
    mapJpegQualityToFfmpegQ q =
      max 2 (min 31 (round ((31 : ℚ) - (q : ℚ) * 29 / 100))) ∧
    2 ≤ mapJpegQualityToFfmpegQ q ∧ mapJpegQualityToFfmpegQ q ≤ 31 := by
  have hc : clampQuality q = q := by
    unfold clampQuality; omega
  refine ⟨?_, ?_, ?_⟩
  · unfold mapJpegQualityToFfmpegQ
    rw [hc, show ((31 : ℚ) - (q : ℚ) * (29 / 100)) = ((31 : ℚ) - (q : ℚ) * 29 / 100)
      from by ring]
  · exact le_max_left _ _
  · exact max_le (by norm_num) (min_le_left _ _)

/-- Witness for C7 at quality 70. -/
theorem ffmpeg_quality_map_c7_witness :
    mapJpegQualityToFfmpegQ 70 =
      max 2 (min 31 (round ((31 : ℚ) - ((70 : ℤ) : ℚ) * 29 / 100))) ∧
    2 ≤ mapJpegQualityToFfmpegQ 70 ∧ mapJpegQualityToFfmpegQ 70 ≤ 31 :=
  ffmpeg_quality_map_c7 70 (by norm_num) (by norm_num)

/-- C10: when the state file is missing or holds unparsable JSON,
loadState returns the null record without throwing, expectedFor is
null for every screen id, and the truth path's expected URL
normalizes to "" so the mismatch check can never fire: any non-blank,
non-error page is captured with no URL verification. -/
theorem loadState_fallback_c10 (r : StateFileRead) (id : String)
    (href : String → Option String) (current : String)
    (h : r = StateFileRead.missing ∨ ∃ raw, r = StateFileRead.malformed raw) :
    loadState r = { hdmi1 := none, hdmi2 := none } ∧
    expectedFor r id = none ∧
    devtoolsTruthOutcome (normalizeUrl href ((expectedFor r id).getD "")) current ≠
      TruthOutcome.urlMismatch ∧
    (isBlankOrError current = false →
      devtoolsTruthOutcome (normalizeUrl href ((expectedFor r id).getD "")) current =
        TruthOutcome.captured) := by
  have hload : loadState r = { hdmi1 := none, hdmi2 := none } := by
    rcases h with rfl | ⟨raw, rfl⟩ <;> rfl
  have hexp : expectedFor r id = none := by
    unfold expectedFor
    rw [hload]
    split_ifs <;> rfl
  have hnorm : normalizeUrl href ((expectedFor r id).getD "") = "" := by
    rw [hexp]; rfl
  refine ⟨hload, hexp, ?_, fun hb => ?_⟩
  · rw [hnorm]
    unfold devtoolsTruthOutcome
    split_ifs with hc hbl
    · exact absurd rfl hc.1
    · simp
    · simp
  · rw [hnorm]
    simp [devtoolsTruthOutcome, hb]

/-- Witness for C10: a malformed state file, the WHATWG parser
rejecting everything, and an ordinary page — the capture proceeds with
no URL verification. -/
theorem loadState_fallback_c10_witness :
    loadState (StateFileRead.malformed "not json") = { hdmi1 := none, hdmi2 := none } ∧
    expectedFor (StateFileRead.malformed "not json") "1" = none ∧
    devtoolsTruthOutcome
      (normalizeUrl (fun _ => none)
        ((expectedFor (StateFileRead.malformed "not json") "1").getD "")) "https://a/" ≠
      TruthOutcome.urlMismatch ∧
    devtoolsTruthOutcome
      (normalizeUrl (fun _ => none)
        ((expectedFor (StateFileRead.malformed "not json") "1").getD "")) "https://a/" =
      TruthOutcome.captured := by
  have h := loadState_fallback_c10 (StateFileRead.malformed "not json") "1"
    (fun _ => none) "https://a/" (Or.inr ⟨"not json", rfl⟩)
  exact ⟨h.1, h.2.1, h.2.2.1, h.2.2.2 (by decide)⟩

/-- C5 counterexample: when neither sharp nor ffmpeg is available,
compressFile takes the raw-passthrough tier and returns the image
unchanged, so a width-100 input keeps width 100 instead of
100 / SCALE_DIVISOR = 50 — the claimed halving does not hold for every
tier. -/
theorem compress_width_counterexample_c5 :
    ¬ (compressFileWidth false false 100 = 100 / SCALE_DIVISOR) := by
  decide

/-- C5 amended: the sharp tier produces width round(W/2), which is
floor(W/2) or floor(W/2)+1; the ffmpeg tier produces exactly
floor(W/2); the raw-passthrough tier returns the width unchanged. -/
theorem compress_width_amended_c5 (w : Nat) (hw : 1 ≤ w) :
    (compressWidth CompressTier.sharpResize w = w / 2 ∨
      compressWidth CompressTier.sharpResize w = w / 2 + 1) ∧
    compressWidth CompressTier.ffmpegScale w = w / SCALE_DIVISOR ∧
    compressWidth CompressTier.rawPassthrough w = w ∧
    compressFileWidth false false w = w := by
  have hw0 : w ≠ 0 := by omega
  refine ⟨?_, rfl, rfl, rfl⟩
  simp only [compressWidth, sharpTargetWidth, SCALE_DIVISOR, hw0, if_false]
  omega

/-- Witness for C5 (amended) at an odd width 101: sharp gives 51,
ffmpeg gives 50, passthrough keeps 101. -/
theorem compress_width_amended_c5_witness :
    (compressWidth CompressTier.sharpResize 101 = 101 / 2 ∨
      compressWidth CompressTier.sharpResize 101 = 101 / 2 + 1) ∧
    compressWidth CompressTier.ffmpegScale 101 = 101 / SCALE_DIVISOR ∧
    compressWidth CompressTier.rawPassthrough 101 = 101 ∧
    compressFileWidth false false 101 = 101 :=
  compress_width_amended_c5 101 (by decide)

/-- C6 counterexample: the sharp jpeg encode at screenshot.js line 248
receives the quality value unclamped, so the input 500 reaches the
image-library encoder outside [1,100]. -/
theorem sharp_quality_counterexample_c6 :
    ¬ (1 ≤ sharpEncodeQuality 500 ∧ sharpEncodeQuality 500 ≤ 100) := by
  decide

/-- C6 amended: quality is clamped to [1,100] in the
Page.captureScreenshot request (0 behaves as 1, 500 as 100) and inside
the ffmpeg quality mapping (which first clamps its input, so clamping
beforehand changes nothing), but the image-library jpeg encode
receives the raw, unclamped value. -/
theorem quality_clamp_amended_c6 (q : ℤ) :
    1 ≤ captureRequestQuality q ∧ captureRequestQuality q ≤ 100 ∧
    captureRequestQuality 0 = 1 ∧ captureRequestQuality 500 = 100 ∧
    mapJpegQualityToFfmpegQ q = mapJpegQualityToFfmpegQ (clampQuality q) ∧
    sharpEncodeQuality q = q := by
  have hidem : clampQuality (clampQuality q) = clampQuality q := by
    unfold clampQuality; omega
  refine ⟨?_, ?_, rfl, rfl, ?_, rfl⟩
  · unfold captureRequestQuality clampQuality; omega
  · unfold captureRequestQuality clampQuality; omega
  · unfold mapJpegQualityToFfmpegQ
    rw [hidem]

/-- C8: the reconnect backoff is an invariant of the channel state
machine: it starts at 2000 ms, every scheduled reconnect waits the
current backoff and then doubles it with a 60000 ms cap, a successful
open resets it to 2000 ms, and after any event sequence it stays
within [2000, 60000]. -/
theorem backoff_invariant_c8 (es : List ChanEvent) :
    backoffAfter [] = 2000 ∧
    2000 ≤ backoffAfter es ∧ backoffAfter es ≤ 60000 ∧
    backoffAfter (es ++ [ChanEvent.openedOk]) = 2000 ∧
    backoffAfter (es ++ [ChanEvent.scheduled]) =
      min (backoffAfter es * 2) 60000 ∧
    (scheduleReconnect (backoffAfter es)).1 = backoffAfter es := by
  have key : ∀ (l : List ChanEvent) (b : Nat), 2000 ≤ b → b ≤ 60000 →
      2000 ≤ l.foldl backoffStep b ∧ l.foldl backoffStep b ≤ 60000 := by
    intro l
    induction l with
    | nil => intro b hb1 hb2; exact ⟨hb1, hb2⟩
    | cons e t ih =>
      intro b hb1 hb2
      apply ih
      all_goals
        cases e <;>
          simp only [backoffStep, scheduleReconnect, BACKOFF_CAP, BACKOFF_INITIAL] <;>
          omega
  have hmem := key es BACKOFF_INITIAL (by norm_num [BACKOFF_INITIAL])
    (by norm_num [BACKOFF_INITIAL, BACKOFF_CAP])
  refine ⟨rfl, ?_, ?_, ?_, ?_, rfl⟩
  · exact hmem.1
  · exact hmem.2
  · unfold backoffAfter
    rw [List.foldl_append]
    rfl
  · unfold backoffAfter
    rw [List.foldl_append]
    rfl

/-- C9 counterexample: with the channel already open, every navigate
call immediately sends a Page.navigate command, so two calls with the
same URL produce two sends, not one — there is no redundant-write
deduplication. -/
theorem navigate_duplicate_counterexample_c9 :
    ¬ ((navigate (navigate { wsOpen := true, desiredUrl := none, sentLog := [] }
          "http://a") "http://a").sentLog.length = 1) := by
  decide

/-- C9 amended: while the channel is not open, redundant navigate
calls with the same URL send nothing and exactly one Page.navigate is
sent when the channel opens; but when the channel is already open,
each navigate call sends a command, so two calls send twice. -/
theorem navigate_when_closed_c9 (c d : DevToolsCtrl) (u : String)
    (hc : c.wsOpen = false) (hd : d.wsOpen = true) :
    (navigate (navigate c u) u).sentLog = c.sentLog ∧
    (onOpen (navigate (navigate c u) u)).sentLog = c.sentLog ++ [u] ∧
    (navigate (navigate d u) u).sentLog = d.sentLog ++ [u, u] := by
  refine ⟨?_, ?_, ?_⟩
  · simp [navigate, sendNavigate, hc]
  · simp [navigate, onOpen, sendNavigate, hc]
  · simp [navigate, sendNavigate, hd]

/-- Witness for C9 (amended) on concrete controllers. -/
theorem navigate_when_closed_c9_witness :
    (navigate (navigate { wsOpen := false, desiredUrl := none, sentLog := [] }
        "http://a") "http://a").sentLog = [] ∧
    (onOpen (navigate (navigate { wsOpen := false, desiredUrl := none, sentLog := [] }
        "http://a") "http://a")).sentLog = [] ++ ["http://a"] ∧
    (navigate (navigate { wsOpen := true, desiredUrl := none, sentLog := [] }
        "http://a") "http://a").sentLog = [] ++ ["http://a", "http://a"] :=
  navigate_when_closed_c9
    { wsOpen := false, desiredUrl := none, sentLog := [] }
    { wsOpen := true, desiredUrl := none, sentLog := [] }
    "http://a" rfl rfl

/-- A left fold of min is below its initial value. -/
lemma foldl_min_le_init (l : List ℕ) : ∀ d : ℕ, l.foldl min d ≤ d := by
  induction l with
  | nil => intro d; exact le_refl d
  | cons c t ih =>
    intro d
    calc (c :: t).foldl min d = t.foldl min (min d c) := rfl
    _ ≤ min d c := ih (min d c)
    _ ≤ d := min_le_left _ _

/-- A left fold of min is below every member of the list. -/
lemma foldl_min_le_mem (l : List ℕ) : ∀ d x : ℕ, x ∈ l → l.foldl min d ≤ x := by
  induction l with
  | nil => intro d x hx; cases hx
  | cons c t ih =>
    intro d x hx
    rcases List.mem_cons.mp hx with rfl | hx
    · calc (x :: t).foldl min d = t.foldl min (min d x) := rfl
      _ ≤ min d x := foldl_min_le_init t (min d x)
      _ ≤ x := min_le_right _ _
    · exact ih (min d c) x hx

/-- A left fold of min is the initial value or a member of the list. -/
lemma foldl_min_choice (l : List ℕ) : ∀ d : ℕ, l.foldl min d = d ∨ l.foldl min d ∈ l := by
  induction l with
  | nil => intro d; exact Or.inl rfl
  | cons c t ih =>
    intro d
    rcases ih (min d c) with h | h
    · rcases min_choice d c with hm | hm
      · exact Or.inl (by rw [show (c :: t).foldl min d = t.foldl min (min d c) from rfl, h, hm])
      · refine Or.inr (List.mem_cons.mpr (Or.inl ?_))
        rw [show (c :: t).foldl min d = t.foldl min (min d c) from rfl, h, hm]
    · exact Or.inr (List.mem_cons.mpr (Or.inr h))

/-- A left fold of max is above its initial value. -/
lemma foldl_max_init_le (l : List ℕ) : ∀ d : ℕ, d ≤ l.foldl max d := by
  induction l with
  | nil => intro d; exact le_refl d
  | cons c t ih =>
    intro d
    calc d ≤ max d c := le_max_left _ _
    _ ≤ t.foldl max (max d c) := ih (max d c)
    _ = (c :: t).foldl max d := rfl

/-- A left fold of max is above every member of the list. -/
lemma foldl_max_mem_le (l : List ℕ) : ∀ d x : ℕ, x ∈ l → x ≤ l.foldl max d := by
  induction l with
  | nil => intro d x hx; cases hx
  | cons c t ih =>
    intro d x hx
    rcases List.mem_cons.mp hx with rfl | hx
    · calc x ≤ max d x := le_max_right _ _
      _ ≤ t.foldl max (max d x) := foldl_max_init_le t (max d x)
      _ = (x :: t).foldl max d := rfl
    · exact ih (max d c) x hx

/-- A left fold of max is the initial value or a member of the list. -/
lemma foldl_max_choice (l : List ℕ) : ∀ d : ℕ, l.foldl max d = d ∨ l.foldl max d ∈ l := by
  induction l with
  | nil => intro d; exact Or.inl rfl
  | cons c t ih =>
    intro d
    rcases ih (max d c) with h | h
    · rcases max_choice d c with hm | hm
      · exact Or.inl (by rw [show (c :: t).foldl max d = t.foldl max (max d c) from rfl, h, hm])
      · refine Or.inr (List.mem_cons.mpr (Or.inl ?_))
        rw [show (c :: t).foldl max d = t.foldl max (max d c) from rfl, h, hm]
    · exact Or.inr (List.mem_cons.mpr (Or.inr h))

/-- A min-fold over a mapped nonempty list, seeded with the head's
value, is a lower bound attained by some member. -/
lemma foldl_min_spec (f : Head → ℕ) (s0 : Head) (srest : List Head) :
    (∀ hd ∈ s0 :: srest, ((s0 :: srest).map f).foldl min (f s0) ≤ f hd) ∧
    (∃ hd ∈ s0 :: srest, f hd = ((s0 :: srest).map f).foldl min (f s0)) := by
  constructor
  · intro hd hmem
    exact foldl_min_le_mem _ _ _ (List.mem_map_of_mem f hmem)
  · rcases foldl_min_choice ((s0 :: srest).map f) (f s0) with h | h
    · exact ⟨s0, List.mem_cons_self _ _, h.symm⟩
    · rcases List.mem_map.mp h with ⟨hd, hmem, heq⟩
      exact ⟨hd, hmem, heq⟩

/-- A max-fold over a mapped nonempty list, seeded with the head's
value, is an upper bound attained by some member. -/
lemma foldl_max_spec (f : Head → ℕ) (s0 : Head) (srest : List Head) :
    (∀ hd ∈ s0 :: srest, f hd ≤ ((s0 :: srest).map f).foldl max (f s0)) ∧
    (∃ hd ∈ s0 :: srest, f hd = ((s0 :: srest).map f).foldl max (f s0)) := by
  constructor
  · intro hd hmem
    exact foldl_max_mem_le _ _ _ (List.mem_map_of_mem f hmem)
  · rcases foldl_max_choice ((s0 :: srest).map f) (f s0) with h | h
    · exact ⟨s0, List.mem_cons_self _ _, h.symm⟩
    · rcases List.mem_map.mp h with ⟨hd, hmem, heq⟩
      exact ⟨hd, hmem, heq⟩

/-- C4: parseHeads is total and never raises: with no parsed geometry
lines it returns the conservative two-head default (two 1920x1080
outputs at x = 0 and x = 1920, total canvas 3840x1080); otherwise its
head list is the parsed heads sorted by ascending x, the total is the
parsed current-WxH when present, and when that is absent or malformed
the total is the bounding-box union of the connected heads'
rectangles (an attained lower bound on x and y, an attained upper
bound on x+w and y+h, and the totals are their differences). -/
theorem parseHeads_total_c4 (totalOpt : Option (Nat × Nat)) (t : Nat × Nat)
    (hs : List Head) (hne : hs ≠ []) :
    parseHeads totalOpt [] = { totalW := 3840, totalH := 1080, heads := defaultHeads } ∧
    List.Sorted headLe (parseHeads totalOpt hs).heads ∧
    List.Perm (parseHeads totalOpt hs).heads hs ∧
    (parseHeads (some t) hs).totalW = t.1 ∧
    (parseHeads (some t) hs).totalH = t.2 ∧
    (∃ minX maxX minY maxY : ℕ,
      (∀ hd ∈ hs, minX ≤ hd.x ∧ hd.x + hd.w ≤ maxX ∧ minY ≤ hd.y ∧ hd.y + hd.h ≤ maxY) ∧
      (∃ hd ∈ hs, hd.x = minX) ∧ (∃ hd ∈ hs, hd.x + hd.w = maxX) ∧
      (∃ hd ∈ hs, hd.y = minY) ∧ (∃ hd ∈ hs, hd.y + hd.h = maxY) ∧
      (parseHeads none hs).totalW = maxX - minX ∧
      (parseHeads none hs).totalH = maxY - minY) := by
  obtain ⟨h0, rest, rfl⟩ := List.exists_cons_of_ne_nil hne
  have hp : List.Perm (List.insertionSort headLe (h0 :: rest)) (h0 :: rest) :=
    List.perm_insertionSort headLe (h0 :: rest)
  refine ⟨rfl, ?_, ?_, rfl, rfl, ?_⟩
  · exact List.sorted_insertionSort headLe (h0 :: rest)
  · exact hp
  · have hsne : List.insertionSort headLe (h0 :: rest) ≠ [] := by
      intro hnil
      rw [hnil] at hp
      exact List.cons_ne_nil h0 rest hp.symm.eq_nil
    obtain ⟨s0, srest, hseq⟩ := List.exists_cons_of_ne_nil hsne
    have hmem_iff : ∀ hd : Head, hd ∈ s0 :: srest ↔ hd ∈ h0 :: rest := by
      intro hd
      rw [← hseq]
      exact hp.mem_iff
    refine ⟨((s0 :: srest).map fun hd => hd.x).foldl min s0.x,
            ((s0 :: srest).map fun hd => hd.x + hd.w).foldl max (s0.x + s0.w),
            ((s0 :: srest).map fun hd => hd.y).foldl min s0.y,
            ((s0 :: srest).map fun hd => hd.y + hd.h).foldl max (s0.y + s0.h),
            ?_, ?_, ?_, ?_, ?_, ?_, ?_⟩
    · intro hd hmem
      have hmem' := (hmem_iff hd).mpr hmem
      exact ⟨(foldl_min_spec (fun hd => hd.x) s0 srest).1 hd hmem',
             (foldl_max_spec (fun hd => hd.x + hd.w) s0 srest).1 hd hmem',
             (foldl_min_spec (fun hd => hd.y) s0 srest).1 hd hmem',
             (foldl_max_spec (fun hd => hd.y + hd.h) s0 srest).1 hd hmem'⟩
    · rcases (foldl_min_spec (fun hd => hd.x) s0 srest).2 with ⟨hd, hmem, heq⟩
      exact ⟨hd, (hmem_iff hd).mp hmem, heq⟩
    · rcases (foldl_max_spec (fun hd => hd.x + hd.w) s0 srest).2 with ⟨hd, hmem, heq⟩
      exact ⟨hd, (hmem_iff hd).mp hmem, heq⟩
    · rcases (foldl_min_spec (fun hd => hd.y) s0 srest).2 with ⟨hd, hmem, heq⟩
      exact ⟨hd, (hmem_iff hd).mp hmem, heq⟩
    · rcases (foldl_max_spec (fun hd => hd.y + hd.h) s0 srest).2 with ⟨hd, hmem, heq⟩
      exact ⟨hd, (hmem_iff hd).mp hmem, heq⟩
    · show (bboxTotalList (List.insertionSort headLe (h0 :: rest))).1 = _
      rw [hseq]
      rfl
    · show (bboxTotalList (List.insertionSort headLe (h0 :: rest))).2 = _
      rw [hseq]
      rfl

/-- Witness for C4 on a concrete out-of-order dual-head list with no
parsed total. -/
theorem parseHeads_total_c4_witness :
    parseHeads none [] = { totalW := 3840, totalH := 1080, heads := defaultHeads } ∧
    List.Sorted headLe (parseHeads none demoHeads).heads ∧
    List.Perm (parseHeads none demoHeads).heads demoHeads ∧
    (parseHeads (some (3840, 1080)) demoHeads).totalW = (3840, 1080).1 ∧
    (parseHeads (some (3840, 1080)) demoHeads).totalH = (3840, 1080).2 ∧
    (∃ minX maxX minY maxY : ℕ,
      (∀ hd ∈ demoHeads,
        minX ≤ hd.x ∧ hd.x + hd.w ≤ maxX ∧ minY ≤ hd.y ∧ hd.y + hd.h ≤ maxY) ∧
      (∃ hd ∈ demoHeads, hd.x = minX) ∧ (∃ hd ∈ demoHeads, hd.x + hd.w = maxX) ∧
      (∃ hd ∈ demoHeads, hd.y = minY) ∧ (∃ hd ∈ demoHeads, hd.y + hd.h = maxY) ∧
      (parseHeads none demoHeads).totalW = maxX - minX ∧
      (parseHeads none demoHeads).totalH = maxY - minY) :=
  parseHeads_total_c4 none (3840, 1080) demoHeads (by decide)

/-- C3: in runtime screen-to-port detection, when exactly one debugged
window is found, the detected map binds right to null, buildControllers
creates no controller for screen "2", every navigation for screen "2"
is treated as screen-unavailable and queued, and screen "2" is never
bound to the same port as screen "1". -/
theorem single_window_screen2_null_c3 (probe : Nat → Option Int)
    (h : (candidatePorts.filterMap fun p => (probe p).map fun xv => (p, xv)).length = 1) :
    ∃ p : Nat, detectLeftRightPortsCDP probe = some { left := p, right := none } ∧
      buildControllers { left := p, right := none } = { c1 := some p, c2 := none } ∧
      (∀ url : String, url ≠ "" → ∀ ready : Bool,
        applyIfReady ready (buildControllers { left := p, right := none }) "2" url =
          ApplyOutcome.queuedUnavailable) ∧
      (∀ m : DetectedMap, (buildControllers m).c2 ≠ some m.left) := by
  have hnever : ∀ m : DetectedMap, (buildControllers m).c2 ≠ some m.left := by
    intro m
    rcases m with ⟨l, _ | r⟩
    · simp [buildControllers]
    · by_cases hrl : r = l
      · subst hrl
        simp [buildControllers]
      · simp [buildControllers, hrl]
  have happly : ∀ p : Nat, ∀ url : String, url ≠ "" → ∀ ready : Bool,
      applyIfReady ready (buildControllers { left := p, right := none }) "2" url =
        ApplyOutcome.queuedUnavailable := by
    intro p url hurl ready
    simp [applyIfReady, buildControllers, ctrlFor, hurl]
  rcases h22 : probe 9222 with _ | x1 <;> rcases h23 : probe 9223 with _ | x2
  · exfalso
    simp [candidatePorts, h22, h23] at h
  · refine ⟨9223, ?_, rfl, happly 9223, hnever⟩
    simp [detectLeftRightPortsCDP, candidatePorts, h22, h23]
  · refine ⟨9222, ?_, rfl, happly 9222, hnever⟩
    simp [detectLeftRightPortsCDP, candidatePorts, h22, h23]
  · exfalso
    simp [candidatePorts, h22, h23] at h

/-- Witness for C3 with only port 9222 answering the probe. -/
theorem single_window_screen2_null_c3_witness :
    ∃ p : Nat,
      detectLeftRightPortsCDP (fun q => if q = 9222 then some 0 else none) =
        some { left := p, right := none } ∧
      buildControllers { left := p, right := none } = { c1 := some p, c2 := none } ∧
      (∀ url : String, url ≠ "" → ∀ ready : Bool,
        applyIfReady ready (buildControllers { left := p, right := none }) "2" url =
          ApplyOutcome.queuedUnavailable) ∧
      (∀ m : DetectedMap, (buildControllers m).c2 ≠ some m.left) :=
  single_window_screen2_null_c3 (fun q => if q = 9222 then some 0 else none) (by decide)

end BetsaDisplay
